import Mathlib

/-!
Verification of the contact-detection core of the Robot-arm-ctl repository
(`pressure_detector.py` and `pressure_monitor.py`), shallowly embedded in
Lean.

Modelling conventions:
* Python floats are modelled as rationals (every quantity the properties
  talk about is exact decimal arithmetic).
* Wall-clock reads (`time.time()`, `datetime.now()`) become explicit `now`
  arguments.
* The telemetry source (`lebai.get_phy_data()`) becomes an explicit
  argument: one `Option PhyData` per call, wrapped in `Except` where the
  call itself may raise.
* Code that raises a Python exception is modelled with `Except Unit`;
  `Except.error ()` is a raised exception, caught where the source has a
  `try`/`except`.
* Methods that mutate `self` become functions from the state to the new
  state.
-/

namespace RobotArmCtl

/-- The `PressureDetectionMode` enum of `pressure_detector.py`. -/
inductive PressureDetectionMode where
  | VOLTAGE_DROP
  | CURRENT_SPIKE
  | POWER_ANOMALY
  | MULTI_JOINT_ANALYSIS
deriving DecidableEq

/-- The `.value` string of each enum member. -/
def PressureDetectionMode.value : PressureDetectionMode → String
  | .VOLTAGE_DROP => "voltage_drop"
  | .CURRENT_SPIKE => "current_spike"
  | .POWER_ANOMALY => "power_anomaly"
  | .MULTI_JOINT_ANALYSIS => "multi_joint"

/-- The `PressureThresholds` namedtuple of `pressure_detector.py`. -/
structure PressureThresholds where
  voltage_drop_threshold : ℚ
  current_spike_threshold : ℚ
  power_change_threshold : ℚ
  detection_frequency : ℚ
  confidence_threshold : ℚ
  joint_count : ℕ
deriving DecidableEq

/-- The `detection_stats` dictionary of `LebaiPressureDetector`. -/
structure DetectionStats where
  total_detections : ℕ
  voltage_detections : ℕ
  current_detections : ℕ
  false_positives : ℕ
deriving DecidableEq

/-- One `get_phy_data()` result dictionary.  A `none` field models a
missing `joint_voltage` / `joint_current` key. -/
structure PhyData where
  joint_voltage : Option (List ℚ)
  joint_current : Option (List ℚ)
deriving DecidableEq

/-- The `details` dictionary stored in a `PressureEvent`. -/
structure EventDetails where
  detection_methods : List String
  baseline_voltages : List ℚ
  baseline_currents : List ℚ
  max_voltage_drop : ℚ
  max_current_spike : ℚ
deriving DecidableEq

/-- The `PressureEvent` namedtuple of `pressure_detector.py`.  These are
exactly its fields; in particular it has no `tcp_position` or
`tcp_velocity` field (which `pressure_monitor.py` tries to read). -/
structure PressureEvent where
  timestamp : ℚ
  detection_method : PressureDetectionMode
  confidence : ℚ
  joint_voltages : List ℚ
  joint_currents : List ℚ
  affected_joints : List ℕ
  voltage_drops : List ℚ
  details : EventDetails
deriving DecidableEq

/-- `create_voltage_thresholds` of `pressure_detector.py` (the three
literal presets). -/
def create_voltage_thresholds (sensitivity : String) : PressureThresholds :=
  if sensitivity = "high" then
    { voltage_drop_threshold := 1
      current_spike_threshold := 3/10
      power_change_threshold := 5
      detection_frequency := 20
      confidence_threshold := 6/10
      joint_count := 6 }
  else if sensitivity = "low" then
    { voltage_drop_threshold := 3
      current_spike_threshold := 1
      power_change_threshold := 15
      detection_frequency := 10
      confidence_threshold := 85/100
      joint_count := 6 }
  else
    { voltage_drop_threshold := 2
      current_spike_threshold := 6/10
      power_change_threshold := 10
      detection_frequency := 15
      confidence_threshold := 75/100
      joint_count := 6 }

/-! ### numpy primitives used by the source -/

/-- Elementwise difference `a - b` of two 1-d numpy arrays: equal lengths
subtract elementwise, a length-1 operand broadcasts, and any other length
mismatch raises `ValueError` (modelled as `Except.error ()`). -/
def npSub (a b : List ℚ) : Except Unit (List ℚ) :=
  if a.length = b.length then .ok (List.zipWith (fun x y => x - y) a b)
  else if a.length = 1 then .ok (b.map (fun y => a.headD 0 - y))
  else if b.length = 1 then .ok (a.map (fun x => x - b.headD 0))
  else .error ()

/-- `np.max` of a 1-d array (0 for the empty array; every use below is
guarded by nonemptiness, matching the source's guards). -/
def npMax : List ℚ → ℚ
  | [] => 0
  | x :: xs => xs.foldl max x

/-- Elementwise comparison `a > t` of a 1-d array against a scalar,
producing a boolean mask. -/
def npGtScalar (a : List ℚ) (t : ℚ) : List Bool :=
  a.map (fun x => if t < x then true else false)

/-- `np.any` of a boolean mask. -/
def npAny (m : List Bool) : Bool := m.any id

/-- `np.where(mask)[0].tolist()`: the indices of the true mask entries, in
increasing order. -/
def npWhereIdx (m : List Bool) : List ℕ :=
  (List.range m.length).filter (fun j => m.getD j false)

/-- numpy boolean-mask indexing `a[m]`: the entries of `a` whose mask bit
is true (the source only uses it with `m.length = a.length`). -/
def npMaskSelect (a : List ℚ) (m : List Bool) : List ℚ :=
  (List.zipWith (fun x b => (x, b)) a m).filterMap
    (fun p => if p.2 then some p.1 else none)

/-- `np.mean(samples, axis=0)` for a list of 1-d vectors: the elementwise
arithmetic mean when all vectors have the first vector's length; an
inhomogeneous (ragged) list of vectors raises (modelled as
`Except.error ()`), as numpy cannot build a rectangular array from it.
The empty list is also modelled as an error; the only call site guards
against it. -/
def npMeanAxis0 (samples : List (List ℚ)) : Except Unit (List ℚ) :=
  match samples with
  | [] => .error ()
  | s :: rest =>
    if rest.all (fun t => t.length = s.length) then
      .ok ((List.range s.length).map (fun j =>
        ((s :: rest).map (fun v => v.getD j 0)).sum / (s :: rest).length))
    else .error ()

/-! ### `LebaiPressureDetector._analyze_voltage_current` -/

/-- `LebaiPressureDetector._analyze_voltage_current` (pressure_detector.py
lines 188-287), as a function of the pieces of `self` it touches.

* `baseline_voltages` / `baseline_currents` / `thresholds` / `stats` are
  the fields of `self` read or written by the method; `now` is the
  `time.time()` value used for the event timestamp.
* Result: the returned `Optional[PressureEvent]` (or a raised exception,
  `Except.error`) together with the updated `detection_stats`.  The only
  statement that can raise after the method starts mutating nothing has
  happened yet, so on error the stats are returned unchanged, matching the
  source order (both array subtractions happen before any stats update).
* `list(set(affected_joints))` is modelled as `List.dedup`; the claims
  treat `affected_joints` as a set, so only membership and
  duplicate-freeness matter.
* Python truthiness tests on lists (`if affected_joints:`,
  `if detection_methods else 0`) are modelled with `List.isEmpty`, and
  `"voltage_drop" in detection_methods` with `List.contains`. -/
def analyze_voltage_current (baseline_voltages baseline_currents : Option (List ℚ))
    (thresholds : PressureThresholds) (stats : DetectionStats)
    (phy_data : PhyData) (now : ℚ) :
    Except Unit (Option PressureEvent) × DetectionStats :=
  match phy_data.joint_voltage, phy_data.joint_current with
  | some voltages0, some currents0 =>
    if voltages0.length = 0 ∨ currents0.length = 0 then (.ok none, stats)
    else
      match baseline_voltages, baseline_currents with
      | some bvs, some bcs =>
        let min_joints := min voltages0.length bvs.length
        let voltages := voltages0.take min_joints
        let currents := currents0.take min_joints
        let baseline_v := bvs.take min_joints
        let baseline_c := bcs.take min_joints
        match npSub baseline_v voltages with
        | .error e => (.error e, stats)
        | .ok voltage_drops =>
          match npSub currents baseline_c with
          | .error e => (.error e, stats)
          | .ok current_increases =>
            let significant_voltage_drops :=
              npGtScalar voltage_drops thresholds.voltage_drop_threshold
            let significant_current_spikes :=
              npGtScalar current_increases thresholds.current_spike_threshold
            let vTriggered := npAny significant_voltage_drops
            let cTriggered := npAny significant_current_spikes
            let affected_joints :=
              (if vTriggered then npWhereIdx significant_voltage_drops else [])
                ++ (if cTriggered then npWhereIdx significant_current_spikes else [])
            let detection_methods :=
              (if vTriggered then ["voltage_drop"] else [])
                ++ (if cTriggered then ["current_spike"] else [])
            let total_confidence :=
              (if vTriggered then
                  min (9/10)
                    (npMax (npMaskSelect voltage_drops significant_voltage_drops)
                      / (thresholds.voltage_drop_threshold * 2))
                else 0)
                + (if cTriggered then
                    min (9/10)
                      (npMax (npMaskSelect current_increases significant_current_spikes)
                        / (thresholds.current_spike_threshold * 2))
                  else 0)
            let stats1 :=
              if vTriggered then
                { stats with voltage_detections := stats.voltage_detections + 1 }
              else stats
            let stats2 :=
              if cTriggered then
                { stats1 with current_detections := stats1.current_detections + 1 }
              else stats1
            if affected_joints.isEmpty then (.ok none, stats2)
            else
              let final_confidence :=
                min (95/100)
                  (if detection_methods.isEmpty then 0
                    else total_confidence / detection_methods.length)
              if thresholds.confidence_threshold ≤ final_confidence then
                (.ok (some {
                  timestamp := now
                  detection_method :=
                    if detection_methods.contains "voltage_drop" then .VOLTAGE_DROP
                    else .CURRENT_SPIKE
                  confidence := final_confidence
                  joint_voltages := voltages
                  joint_currents := currents
                  affected_joints := affected_joints.dedup
                  voltage_drops := voltage_drops
                  details := {
                    detection_methods := detection_methods
                    baseline_voltages := baseline_v
                    baseline_currents := baseline_c
                    max_voltage_drop :=
                      if 0 < voltage_drops.length then npMax voltage_drops else 0
                    max_current_spike :=
                      if 0 < current_increases.length then npMax current_increases
                      else 0 } }), stats2)
              else (.ok none, stats2)
      | _, _ => (.ok none, stats)
  | _, _ => (.ok none, stats)

/-! ### `LebaiPressureDetector` state and methods -/

/-- The mutable state of a `LebaiPressureDetector` instance (the fields of
`self` relevant to detection; the voltage/current history deques are
written but never read by any method, so they are omitted). -/
structure LebaiPressureDetector where
  thresholds : PressureThresholds
  is_monitoring : Bool
  baseline_voltages : Option (List ℚ)
  baseline_currents : Option (List ℚ)
  last_pressure_event : Option PressureEvent
  pressure_detected : Bool
  detection_stats : DetectionStats
deriving DecidableEq

/-- The per-iteration body of `_establish_baseline`'s sampling loop
(pressure_detector.py lines 125-141), folded over the outcomes of the
`get_phy_data()` calls: an `Except.error` outcome is a raised exception
(caught, iteration skipped); a usable sample is appended to both
accumulators when the dict exists, has both keys, and both lists are
nonempty (Python truthiness). -/
def collectBaselineSamples (outcomes : List (Except Unit (Option PhyData))) :
    List (List ℚ) × List (List ℚ) :=
  outcomes.foldl
    (fun acc o =>
      match o with
      | .error _ => acc
      | .ok none => acc
      | .ok (some phy) =>
        match phy.joint_voltage, phy.joint_current with
        | some voltages, some currents =>
          if voltages ≠ [] ∧ currents ≠ [] then
            (acc.1 ++ [voltages], acc.2 ++ [currents])
          else acc
        | _, _ => acc)
    ([], [])

/-- `LebaiPressureDetector._establish_baseline` (pressure_detector.py lines
114-155): the computed `(baseline_voltages, baseline_currents)` pair, or a
raised exception.  `_thresholds` is `self.thresholds`; the source method
never reads it — in particular the default baseline is hardcoded to six
joints (`[24.0] * 6`, `[0.5] * 6`), not `thresholds.joint_count` of them.
The `np.mean(..., axis=0)` calls happen outside the per-sample
`try`/`except`, so an error they raise escapes the method. -/
def LebaiPressureDetector.establish_baseline (_thresholds : PressureThresholds)
    (outcomes : List (Except Unit (Option PhyData))) :
    Except Unit (List ℚ × List ℚ) :=
  let voltage_samples := (collectBaselineSamples outcomes).1
  let current_samples := (collectBaselineSamples outcomes).2
  if voltage_samples ≠ [] ∧ current_samples ≠ [] then
    match npMeanAxis0 voltage_samples with
    | .error e => .error e
    | .ok bv =>
      match npMeanAxis0 current_samples with
      | .error e => .error e
      | .ok bc => .ok (bv, bc)
  else
    .ok (List.replicate 6 24, List.replicate 6 (1/2))

/-- `LebaiPressureDetector.is_pressure_detected` (pressure_detector.py lines
157-186): `phy_data` is the `get_phy_data()` result of this call (`none`
models a falsy result).  A raised exception from the analysis is caught and
turned into `False`; any state mutation made before the raise (there is
none, see `analyze_voltage_current`) is kept. -/
def LebaiPressureDetector.is_pressure_detected (self : LebaiPressureDetector)
    (phy_data : Option PhyData) (now : ℚ) : Bool × LebaiPressureDetector :=
  if !self.is_monitoring then (false, self)
  else
    match phy_data with
    | none => (false, self)
    | some phy =>
      match analyze_voltage_current self.baseline_voltages self.baseline_currents
          self.thresholds self.detection_stats phy now with
      | (.error _, stats2) => (false, { self with detection_stats := stats2 })
      | (.ok none, stats2) => (false, { self with detection_stats := stats2 })
      | (.ok (some ev), stats2) =>
        (true, { self with
          pressure_detected := true
          last_pressure_event := some ev
          detection_stats :=
            { stats2 with total_detections := stats2.total_detections + 1 } })

/-- `LebaiPressureDetector.reset_pressure_state` (pressure_detector.py lines
298-304).  The optional re-calibration in the source is commented out. -/
def LebaiPressureDetector.reset_pressure_state (self : LebaiPressureDetector) :
    LebaiPressureDetector :=
  { self with pressure_detected := false, last_pressure_event := none }

/-- `LebaiPressureDetector.stop_monitoring` (pressure_detector.py lines
102-112): besides printing, it only clears the monitoring flag. -/
def LebaiPressureDetector.stop_monitoring (self : LebaiPressureDetector) :
    LebaiPressureDetector :=
  { self with is_monitoring := false }

/-! ### `PressureMonitor` (pressure_monitor.py) -/

/-- One entry of `self.collision_events` as `_record_collision_event` would
build it.  The dict stores only these six keys — no affected joints and no
voltage/current snapshots.  `timestamp` keeps the event's epoch value that
the source formats into a string (an injective, hence lossless, rendering);
`tcp_position` / `tcp_velocity` are read from fields `PressureEvent` does
not have, so no such dict is ever completed (see
`PressureEvent.tcp_position_attr`). -/
structure CollisionData where
  time : ℚ
  timestamp : ℚ
  detection_method : String
  confidence : ℚ
  tcp_position : List ℚ
  tcp_velocity : List ℚ
deriving DecidableEq

/-- The `session_data` dictionary of `PressureMonitor`.  The source stores
start/end times as formatted `datetime` strings; they are modelled by the
underlying clock value (the formatting is injective at second granularity,
which is the granularity every claim uses). -/
structure SessionData where
  start_time : Option ℚ
  end_time : Option ℚ
  total_duration : ℚ
  collision_count : ℕ
  collision_events : List CollisionData
deriving DecidableEq

/-- The state of a `PressureMonitor` instance.  `last_event` is the local
variable of `_monitoring_loop`, lifted into the state so the loop body can
be a step function. -/
structure PressureMonitor where
  pressure_detector : LebaiPressureDetector
  is_monitoring : Bool
  start_time : Option ℚ
  collision_events : List CollisionData
  session_data : SessionData
  last_event : Option PressureEvent
deriving DecidableEq

/-- `_record_collision_event` reads `event.tcp_position`
(pressure_monitor.py line 180); the `PressureEvent` namedtuple of
`pressure_detector.py` has no such field, so the attribute access raises
`AttributeError`.  Modelled as an always-raising accessor. -/
def PressureEvent.tcp_position_attr (_event : PressureEvent) :
    Except Unit (List ℚ) := .error ()

/-- `_record_collision_event` reads `event.tcp_velocity`
(pressure_monitor.py line 181); `PressureEvent` has no such field either. -/
def PressureEvent.tcp_velocity_attr (_event : PressureEvent) :
    Except Unit (List ℚ) := .error ()

/-- `PressureMonitor._record_collision_event` (pressure_monitor.py lines
166-194): returns the monitor state with the event appended and the
collision counter incremented, or the raised exception.  `event` is the
`get_last_pressure_event()` result (an `Optional` in the source; attribute
access on `None` raises too).  `now` is the `time.time()` of this call. -/
def PressureMonitor.record_collision_event (self : PressureMonitor)
    (event : Option PressureEvent) (now : ℚ) : Except Unit PressureMonitor :=
  match self.start_time with
  | none => .ok self
  | some st =>
    match event with
    | none => .error ()
    | some ev =>
      match ev.tcp_position_attr with
      | .error e => .error e
      | .ok pos =>
        match ev.tcp_velocity_attr with
        | .error e => .error e
        | .ok vel =>
          let collision_data : CollisionData := {
            time := now - st
            timestamp := ev.timestamp
            detection_method := ev.detection_method.value
            confidence := ev.confidence
            tcp_position := pos
            tcp_velocity := vel }
          .ok { self with
            collision_events := self.collision_events ++ [collision_data]
            session_data := { self.session_data with
              collision_count := self.session_data.collision_count + 1 } }

/-- One iteration of the `while` body of `PressureMonitor._monitoring_loop`
(pressure_monitor.py lines 147-164).  `phy_data`/`now` are this tick's
telemetry result and clock.  An exception raised while recording is caught
by the loop's `except` handler: the tick ends with the detector state as
already mutated, `last_event` not updated, and no reset. -/
def PressureMonitor.monitoring_loop_step (self : PressureMonitor)
    (phy_data : Option PhyData) (now : ℚ) : PressureMonitor :=
  let r := self.pressure_detector.is_pressure_detected phy_data now
  let self1 := { self with pressure_detector := r.2 }
  if r.1 then
    let event := r.2.last_pressure_event
    if event ≠ self1.last_event then
      match self1.record_collision_event event now with
      | .error _ => self1
      | .ok self2 =>
        { self2 with
          last_event := event
          pressure_detector := self2.pressure_detector.reset_pressure_state }
    else self1
  else self1

/-- The monitoring loop run over a finite list of ticks; the `while
self.is_monitoring` guard is re-checked before each iteration. -/
def PressureMonitor.monitoring_loop_run (self : PressureMonitor)
    (ticks : List (Option PhyData × ℚ)) : PressureMonitor :=
  ticks.foldl
    (fun m t => if m.is_monitoring then m.monitoring_loop_step t.1 t.2 else m)
    self

/-- `PressureMonitor.stop_monitoring` (pressure_monitor.py lines 196-212):
clears both monitoring flags, and — whenever a start time was recorded —
stamps `session_data` end time, recomputes the duration from the current
clock, and copies the event list into `session_data`.  The thread join has
no effect on the modelled state. -/
def PressureMonitor.stop_monitoring (self : PressureMonitor) (now : ℚ) :
    PressureMonitor :=
  let self1 := { self with
    is_monitoring := false
    pressure_detector := self.pressure_detector.stop_monitoring }
  match self1.start_time with
  | none => self1
  | some st =>
    { self1 with session_data := { self1.session_data with
        end_time := some now
        total_duration := now - st
        collision_events := self1.collision_events } }

/-! ### Concrete scenario values -/

/-- The `normal` preset. -/
def normalThresholds : PressureThresholds := create_voltage_thresholds "normal"

/-- Baseline voltages `[24.0] * 6`. -/
def c1Baseline_v : List ℚ := [24, 24, 24, 24, 24, 24]

/-- Baseline currents `[0.5] * 6`. -/
def c1Baseline_c : List ℚ := [1/2, 1/2, 1/2, 1/2, 1/2, 1/2]

/-- The C1 scenario snapshot: voltages `[24, 24, 18, 24, 24, 24]`,
currents `[0.5] * 6`. -/
def c1Phy : PhyData :=
  { joint_voltage := some [24, 24, 18, 24, 24, 24]
    joint_current := some [1/2, 1/2, 1/2, 1/2, 1/2, 1/2] }

/-- The event the detector produces on the C1 scenario when the wall clock
reads `ts`. -/
def c1Event (ts : ℚ) : PressureEvent :=
  { timestamp := ts
    detection_method := .VOLTAGE_DROP
    confidence := 9/10
    joint_voltages := [24, 24, 18, 24, 24, 24]
    joint_currents := [1/2, 1/2, 1/2, 1/2, 1/2, 1/2]
    affected_joints := [2]
    voltage_drops := [0, 0, 6, 0, 0, 0]
    details := {
      detection_methods := ["voltage_drop"]
      baseline_voltages := [24, 24, 24, 24, 24, 24]
      baseline_currents := [1/2, 1/2, 1/2, 1/2, 1/2, 1/2]
      max_voltage_drop := 6
      max_current_spike := 0 } }

/-- The C5 sub-threshold snapshot: a 2.5 V drop on joint 0 (flagged, since
2.5 > 2.0) whose confidence 2.5 / 4 = 0.625 stays below the 0.75 bar. -/
def c5Phy : PhyData :=
  { joint_voltage := some [43/2, 24, 24, 24, 24, 24]
    joint_current := some [1/2, 1/2, 1/2, 1/2, 1/2, 1/2] }

/-- A freshly calibrated detector in the C1 configuration. -/
def c1Detector : LebaiPressureDetector :=
  { thresholds := normalThresholds
    is_monitoring := true
    baseline_voltages := some c1Baseline_v
    baseline_currents := some c1Baseline_c
    last_pressure_event := none
    pressure_detected := false
    detection_stats := ⟨0, 0, 0, 0⟩ }

/-- The projection of a `PressureEvent` on everything except its
`timestamp` (the only field fed from the wall clock). -/
def eventData (e : PressureEvent) :
    PressureDetectionMode × ℚ × List ℚ × List ℚ × List ℕ × List ℚ × EventDetails :=
  (e.detection_method, e.confidence, e.joint_voltages, e.joint_currents,
   e.affected_joints, e.voltage_drops, e.details)

/-- The elementwise arithmetic mean of a nonempty family of equal-length
vectors, as the spec words it (entry j = the mean of the samples'
entries j). -/
def elementwiseMean (samples : List (List ℚ)) : List ℚ :=
  (List.range (samples.headD []).length).map (fun j =>
    (samples.map (fun v => v.getD j 0)).sum / samples.length)

/-- Two calibration samples whose joint counts differ (1 and 2). -/
def raggedOutcomes : List (Except Unit (Option PhyData)) :=
  [.ok (some { joint_voltage := some [24], joint_current := some [1] }),
   .ok (some { joint_voltage := some [24, 24], joint_current := some [1, 1] })]

/-- Two well-formed one-joint calibration samples. -/
def uniformOutcomes : List (Except Unit (Option PhyData)) :=
  [.ok (some { joint_voltage := some [24], joint_current := some [1] }),
   .ok (some { joint_voltage := some [26], joint_current := some [3] })]

/-- A thresholds value configured for seven joints. -/
def sevenJointThresholds : PressureThresholds :=
  { voltage_drop_threshold := 2
    current_spike_threshold := 6/10
    power_change_threshold := 10
    detection_frequency := 15
    confidence_threshold := 75/100
    joint_count := 7 }

/-- A monitor state at the start of the sampling loop: session started at
time 0, calibrated detector, nothing recorded yet. -/
def c6Monitor : PressureMonitor :=
  { pressure_detector := c1Detector
    is_monitoring := true
    start_time := some 0
    collision_events := []
    session_data :=
      { start_time := some 0
        end_time := none
        total_duration := 0
        collision_count := 0
        collision_events := [] }
    last_event := none }

/-! ### Helper lemmas -/

/-- The `normal` preset, spelled out. -/
lemma normalThresholds_eq :
    normalThresholds =
      { voltage_drop_threshold := 2
        current_spike_threshold := 6/10
        power_change_threshold := 10
        detection_frequency := 15
        confidence_threshold := 75/100
        joint_count := 6 } := by
  simp [normalThresholds, create_voltage_thresholds]

/-- Full evaluation of the detector on the C1 scenario, for any prior
statistics and any clock value. -/
lemma analyze_c1_eval (stats : DetectionStats) (now : ℚ) :
    analyze_voltage_current (some c1Baseline_v) (some c1Baseline_c)
        normalThresholds stats c1Phy now
      = (.ok (some (c1Event now)),
         { stats with voltage_detections := stats.voltage_detections + 1 }) := by
  rw [normalThresholds_eq]
  norm_num [analyze_voltage_current, c1Baseline_v, c1Baseline_c,
    c1Phy, c1Event, npSub, npGtScalar, npAny, npWhereIdx,
    npMaskSelect, npMax, List.range_succ, List.dedup_cons_of_not_mem, min_def,
    List.filterMap_cons, List.filterMap_nil]

/-! ### Claim theorems -/

/-- C1: with baseline voltages `[24.0]*6`, baseline currents `[0.5]*6` and
the `normal` preset (voltage_drop_threshold 2.0, current_spike_threshold
0.6, confidence_threshold 0.75), the snapshot with voltages
`[24, 24, 18, 24, 24, 24]` and currents `[0.5]*6` makes the detector emit
an event with confidence exactly 0.9, affected joints `{2}` and method
`voltage_drop`. -/
theorem c1_normal_preset_literal_scenario :
    (analyze_voltage_current (some c1Baseline_v) (some c1Baseline_c)
        normalThresholds ⟨0, 0, 0, 0⟩ c1Phy 0).1 = .ok (some (c1Event 0))
    ∧ (c1Event 0).confidence = 9/10
    ∧ (c1Event 0).affected_joints = [2]
    ∧ (c1Event 0).detection_method = .VOLTAGE_DROP := by
  refine ⟨?_, rfl, rfl, rfl⟩
  rw [analyze_c1_eval]

set_option maxHeartbeats 1000000 in
/-- C9: any event the detector returns has a nonempty, duplicate-free set
of affected joints, and a confidence at least the configured
confidence_threshold and at most 0.95; a sub-threshold candidate comes
back as `none`, never as an event. -/
theorem c9_event_invariants (baseline_voltages baseline_currents : Option (List ℚ))
    (thresholds : PressureThresholds) (stats : DetectionStats) (phy : PhyData)
    (now : ℚ) (ev : PressureEvent) (stats2 : DetectionStats)
    (h : analyze_voltage_current baseline_voltages baseline_currents thresholds
        stats phy now = (.ok (some ev), stats2)) :
    ev.affected_joints ≠ [] ∧ ev.affected_joints.Nodup
    ∧ thresholds.confidence_threshold ≤ ev.confidence
    ∧ ev.confidence ≤ 95/100 := by
  obtain ⟨jv, jc⟩ := phy
  cases jv with
  | none => simp [analyze_voltage_current] at h
  | some voltages0 =>
    cases jc with
    | none => simp [analyze_voltage_current] at h
    | some currents0 =>
      cases baseline_voltages with
      | none =>
        simp only [analyze_voltage_current] at h
        split at h <;> simp at h
      | some bvs =>
        cases baseline_currents with
        | none =>
          simp only [analyze_voltage_current] at h
          split at h <;> simp at h
        | some bcs =>
          simp only [analyze_voltage_current] at h
          repeat' split at h
          all_goals
            first
            | exact Except.noConfusion (congrArg Prod.fst h)
            | exact Option.noConfusion (Except.ok.inj (congrArg Prod.fst h))
            | (have hev := Option.some.inj (Except.ok.inj (congrArg Prod.fst h))
               subst hev
               simp only [List.isEmpty_eq_true] at *
               refine ⟨?_, List.nodup_dedup _, by assumption, min_le_left _ _⟩
               simp only [ne_eq, List.dedup_eq_nil]
               assumption)

/-- C9 witness: the invariants instantiated on the C1 scenario event. -/
theorem c9_event_invariants_witness :
    (c1Event 0).affected_joints ≠ [] ∧ (c1Event 0).affected_joints.Nodup
    ∧ normalThresholds.confidence_threshold ≤ (c1Event 0).confidence
    ∧ (c1Event 0).confidence ≤ 95/100 :=
  c9_event_invariants (some c1Baseline_v) (some c1Baseline_c) normalThresholds
    ⟨0, 0, 0, 0⟩ c1Phy 0 (c1Event 0) ⟨0, 1, 0, 0⟩
    (by rw [analyze_c1_eval])

/-- C10: `reset_pressure_state` clears the pressure flag and the last
event, and leaves the baselines, the thresholds, the statistics and the
monitoring flag untouched (in particular it never re-runs calibration: the
baseline is unchanged). -/
theorem c10_reset_pressure_state_frame (d : LebaiPressureDetector) :
    d.reset_pressure_state.pressure_detected = false
    ∧ d.reset_pressure_state.last_pressure_event = none
    ∧ d.reset_pressure_state.baseline_voltages = d.baseline_voltages
    ∧ d.reset_pressure_state.baseline_currents = d.baseline_currents
    ∧ d.reset_pressure_state.thresholds = d.thresholds
    ∧ d.reset_pressure_state.detection_stats = d.detection_stats
    ∧ d.reset_pressure_state.is_monitoring = d.is_monitoring :=
  ⟨rfl, rfl, rfl, rfl, rfl, rfl, rfl⟩

/-- C4 counterexample: on the C1 scenario, two calls with identical
(snapshot, baseline, thresholds) arguments but made at different wall-clock
instants return different events (the timestamp field differs), and the
call changes the detector's statistics counters — hidden mutable state
beyond the caller-held baseline. -/
theorem c4_counterexample :
    (analyze_voltage_current (some c1Baseline_v) (some c1Baseline_c)
        normalThresholds ⟨0, 0, 0, 0⟩ c1Phy 0).1
      ≠ (analyze_voltage_current (some c1Baseline_v) (some c1Baseline_c)
          normalThresholds ⟨0, 0, 0, 0⟩ c1Phy 1).1
    ∧ (analyze_voltage_current (some c1Baseline_v) (some c1Baseline_c)
          normalThresholds ⟨0, 0, 0, 0⟩ c1Phy 0).2
      ≠ ⟨0, 0, 0, 0⟩ := by
  rw [analyze_c1_eval, analyze_c1_eval]
  constructor
  · simp [c1Event]
  · simp

set_option maxHeartbeats 1000000 in
/-- C4 (amended): the detector's result is a deterministic function of
(snapshot, baseline, thresholds) up to the wall-clock timestamp field — it
does not depend on the accumulated statistics or on the clock in any other
field — but a call may mutate the per-method statistics counters, hidden
state beyond the caller-held baseline (see the counterexample). -/
theorem c4_amended_deterministic_up_to_timestamp
    (baseline_voltages baseline_currents : Option (List ℚ))
    (thresholds : PressureThresholds) (stats1 stats2 : DetectionStats)
    (phy : PhyData) (t1 t2 : ℚ) :
    ((analyze_voltage_current baseline_voltages baseline_currents thresholds
        stats1 phy t1).1).map (Option.map eventData)
      = ((analyze_voltage_current baseline_voltages baseline_currents thresholds
          stats2 phy t2).1).map (Option.map eventData) := by
  obtain ⟨jv, jc⟩ := phy
  cases jv <;> cases jc <;>
    cases baseline_voltages <;> cases baseline_currents <;>
      simp only [analyze_voltage_current] <;>
      (repeat' split) <;> rfl

set_option maxHeartbeats 1000000 in
/-- The analysis never touches `total_detections` or `false_positives`
(only the caller increments the total, and only on an actual event). -/
lemma analyze_preserves_total_and_fp
    (baseline_voltages baseline_currents : Option (List ℚ))
    (thresholds : PressureThresholds) (stats : DetectionStats)
    (phy : PhyData) (now : ℚ) :
    ((analyze_voltage_current baseline_voltages baseline_currents thresholds
        stats phy now).2).total_detections = stats.total_detections
    ∧ ((analyze_voltage_current baseline_voltages baseline_currents thresholds
        stats phy now).2).false_positives = stats.false_positives := by
  obtain ⟨jv, jc⟩ := phy
  cases jv <;> cases jc <;>
    cases baseline_voltages <;> cases baseline_currents <;>
      simp only [analyze_voltage_current] <;>
      (repeat' split) <;> first | exact ⟨rfl, rfl⟩ | simp

/-- `is_pressure_detected` either reports a detection, or reports false
and leaves the total counter, the false-positive counter, the pressure
flag and the stored last event unchanged. -/
lemma is_pressure_detected_cases (self : LebaiPressureDetector)
    (phy_data : Option PhyData) (now : ℚ) :
    (self.is_pressure_detected phy_data now).1 = true
    ∨ ((self.is_pressure_detected phy_data now).1 = false
        ∧ (self.is_pressure_detected phy_data now).2.detection_stats.total_detections
            = self.detection_stats.total_detections
        ∧ (self.is_pressure_detected phy_data now).2.detection_stats.false_positives
            = self.detection_stats.false_positives
        ∧ (self.is_pressure_detected phy_data now).2.pressure_detected
            = self.pressure_detected
        ∧ (self.is_pressure_detected phy_data now).2.last_pressure_event
            = self.last_pressure_event) := by
  unfold LebaiPressureDetector.is_pressure_detected
  split
  · exact Or.inr ⟨rfl, rfl, rfl, rfl, rfl⟩
  · split
    · exact Or.inr ⟨rfl, rfl, rfl, rfl, rfl⟩
    · next phy =>
      split
      · next e stats2 heq =>
        have hp := analyze_preserves_total_and_fp self.baseline_voltages
          self.baseline_currents self.thresholds self.detection_stats phy now
        rw [heq] at hp
        exact Or.inr ⟨rfl, hp.1, hp.2, rfl, rfl⟩
      · next stats2 heq =>
        have hp := analyze_preserves_total_and_fp self.baseline_voltages
          self.baseline_currents self.thresholds self.detection_stats phy now
        rw [heq] at hp
        exact Or.inr ⟨rfl, hp.1, hp.2, rfl, rfl⟩
      · exact Or.inl rfl

/-- Full evaluation of the detector on the C5 sub-threshold snapshot: the
2.5 V drop on joint 0 is flagged, its confidence 0.625 misses the 0.75
bar, no event is returned — yet `voltage_detections` is incremented. -/
lemma analyze_c5_eval (stats : DetectionStats) (now : ℚ) :
    analyze_voltage_current (some c1Baseline_v) (some c1Baseline_c)
        normalThresholds stats c5Phy now
      = (.ok none, { stats with voltage_detections := stats.voltage_detections + 1 }) := by
  rw [normalThresholds_eq]
  norm_num [analyze_voltage_current, c1Baseline_v, c1Baseline_c, c5Phy,
    npSub, npGtScalar, npAny, npWhereIdx, npMaskSelect, npMax,
    List.range_succ, List.dedup_cons_of_not_mem, min_def,
    List.filterMap_cons, List.filterMap_nil]

/-- C5 counterexample: a sub-threshold anomaly (joint 0 flagged with drop
2.5 V, confidence 0.625 < 0.75) returns no event, yet the per-method
counter `voltage_detections` is incremented — the detection counters are
not "exactly the same after the call as before". -/
theorem c5_counterexample :
    analyze_voltage_current (some c1Baseline_v) (some c1Baseline_c)
        normalThresholds ⟨0, 0, 0, 0⟩ c5Phy 0
      = (.ok none, ⟨0, 1, 0, 0⟩)
    ∧ (⟨0, 1, 0, 0⟩ : DetectionStats) ≠ (⟨0, 0, 0, 0⟩ : DetectionStats) := by
  constructor
  · rw [analyze_c5_eval]
  · simp

/-- C5 (amended): whenever the detector reports no detection — in
particular on a sub-threshold anomaly — no event is surfaced and the
total-detections counter, the false-positive counter, the pressure flag
and the stored last event are unchanged; only the per-method counters may
have been incremented. -/
theorem c5_amended_suppressed_frame (self : LebaiPressureDetector)
    (phy_data : Option PhyData) (now : ℚ)
    (h : (self.is_pressure_detected phy_data now).1 = false) :
    (self.is_pressure_detected phy_data now).2.detection_stats.total_detections
        = self.detection_stats.total_detections
    ∧ (self.is_pressure_detected phy_data now).2.detection_stats.false_positives
        = self.detection_stats.false_positives
    ∧ (self.is_pressure_detected phy_data now).2.pressure_detected
        = self.pressure_detected
    ∧ (self.is_pressure_detected phy_data now).2.last_pressure_event
        = self.last_pressure_event := by
  rcases is_pressure_detected_cases self phy_data now with htrue | ⟨_, hrest⟩
  · rw [h] at htrue
    exact absurd htrue (by simp)
  · exact hrest

/-- Evaluation of `is_pressure_detected` on the C5 snapshot from a freshly
calibrated detector. -/
lemma is_detected_c5_eval :
    c1Detector.is_pressure_detected (some c5Phy) 0
      = (false, { c1Detector with detection_stats := ⟨0, 1, 0, 0⟩ }) := by
  simp [LebaiPressureDetector.is_pressure_detected, c1Detector, analyze_c5_eval]

/-- C5 witness: the amended frame property instantiated on the concrete
sub-threshold scenario. -/
theorem c5_amended_suppressed_frame_witness :
    (c1Detector.is_pressure_detected (some c5Phy) 0).1 = false
    ∧ ((c1Detector.is_pressure_detected (some c5Phy) 0).2.detection_stats.total_detections
          = c1Detector.detection_stats.total_detections
      ∧ (c1Detector.is_pressure_detected (some c5Phy) 0).2.detection_stats.false_positives
          = c1Detector.detection_stats.false_positives
      ∧ (c1Detector.is_pressure_detected (some c5Phy) 0).2.pressure_detected
          = c1Detector.pressure_detected
      ∧ (c1Detector.is_pressure_detected (some c5Phy) 0).2.last_pressure_event
          = c1Detector.last_pressure_event) :=
  ⟨by rw [is_detected_c5_eval],
   c5_amended_suppressed_frame c1Detector (some c5Phy) 0 (by rw [is_detected_c5_eval])⟩

/-- C2 counterexample: calibration samples with differing joint counts
(one joint, then two joints) are collected, not discarded, and the mean
computation then raises — the calibrator fails with an exception instead
of returning a Baseline. -/
theorem c2_counterexample :
    LebaiPressureDetector.establish_baseline normalThresholds raggedOutcomes
      = .error () := rfl

/-- C2 (amended): calibration never raises and returns the elementwise
arithmetic means exactly when every collected sample has the joint count
of the first one; samples of a different joint count are not discarded —
they make the mean computation raise (see the counterexample). -/
theorem c2_amended_uniform_samples_mean
    (thresholds : PressureThresholds)
    (outcomes : List (Except Unit (Option PhyData)))
    (v0 c0 : List ℚ) (vrest crest : List (List ℚ))
    (hv : (collectBaselineSamples outcomes).1 = v0 :: vrest)
    (hc : (collectBaselineSamples outcomes).2 = c0 :: crest)
    (hvu : ∀ l ∈ vrest, l.length = v0.length)
    (hcu : ∀ l ∈ crest, l.length = c0.length) :
    LebaiPressureDetector.establish_baseline thresholds outcomes
      = .ok (elementwiseMean (v0 :: vrest), elementwiseMean (c0 :: crest)) := by
  simp [LebaiPressureDetector.establish_baseline, hv, hc, npMeanAxis0,
    List.all_eq_true, elementwiseMean]
  rw [if_pos hvu, if_pos hcu]

/-- C2 witness: two well-formed one-joint samples calibrate to their
elementwise means. -/
theorem c2_amended_uniform_samples_mean_witness :
    (collectBaselineSamples uniformOutcomes).1 = [[24], [26]]
    ∧ (collectBaselineSamples uniformOutcomes).2 = [[1], [3]]
    ∧ LebaiPressureDetector.establish_baseline normalThresholds uniformOutcomes
        = .ok (elementwiseMean [[24], [26]], elementwiseMean [[1], [3]]) :=
  ⟨rfl, rfl,
   c2_amended_uniform_samples_mean normalThresholds uniformOutcomes
     [24] [1] [[26]] [[3]] rfl rfl (by simp) (by simp)⟩

/-- C3 counterexample: with zero usable samples and a configuration asking
for seven joints, the calibrator still returns the hardcoded six-entry
default baseline — not a vector of `thresholds.joint_count` entries. -/
theorem c3_counterexample :
    LebaiPressureDetector.establish_baseline sevenJointThresholds []
        = .ok (List.replicate 6 24, List.replicate 6 (1/2))
    ∧ sevenJointThresholds.joint_count = 7
    ∧ (List.replicate (6 : ℕ) (24 : ℚ)).length ≠ sevenJointThresholds.joint_count := by
  refine ⟨rfl, rfl, ?_⟩
  simp [sevenJointThresholds]

/-- C3 (amended): when calibration yields zero usable samples, the
calibrator returns the hardcoded default baseline of exactly six entries
with voltage 24.0 and current 0.5 per joint, regardless of the configured
`joint_count`. -/
theorem c3_amended_hardcoded_default
    (thresholds : PressureThresholds)
    (outcomes : List (Except Unit (Option PhyData)))
    (h : collectBaselineSamples outcomes = ([], [])) :
    LebaiPressureDetector.establish_baseline thresholds outcomes
      = .ok (List.replicate 6 24, List.replicate 6 (1/2)) := by
  simp [LebaiPressureDetector.establish_baseline, h]

/-- C3 witness: a single raising telemetry call yields zero usable samples
and the six-entry default, under the seven-joint configuration. -/
theorem c3_amended_hardcoded_default_witness :
    collectBaselineSamples [Except.error ()] = ([], [])
    ∧ LebaiPressureDetector.establish_baseline sevenJointThresholds [Except.error ()]
        = .ok (List.replicate 6 24, List.replicate 6 (1/2)) :=
  ⟨rfl, c3_amended_hardcoded_default sevenJointThresholds [Except.error ()] rfl⟩

/-- C7 counterexample: stopping at t = 10 and then again at t = 20
re-stamps the session end time (10, then 20) and recomputes the duration —
the two calls do not produce the same finalized record. -/
theorem c7_counterexample :
    (c6Monitor.stop_monitoring 10).session_data.end_time = some 10
    ∧ ((c6Monitor.stop_monitoring 10).stop_monitoring 20).session_data.end_time
        = some 20
    ∧ (c6Monitor.stop_monitoring 10).session_data.total_duration = 10
    ∧ ((c6Monitor.stop_monitoring 10).stop_monitoring 20).session_data.total_duration
        = 20
    ∧ some (10 : ℚ) ≠ some (20 : ℚ) := by
  norm_num [PressureMonitor.stop_monitoring, LebaiPressureDetector.stop_monitoring,
    c6Monitor]

/-- C7 (amended): a second `stop()` keeps the session stopped and neither
loses nor duplicates recorded events — the live event list, the recorded
event list and the collision counter are unchanged — but it re-stamps the
end time and recomputes the duration from its own wall clock, so the two
calls' finalized records differ when made at different times (see the
counterexample). -/
theorem c7_amended_second_stop_preserves_events
    (m : PressureMonitor) (t1 t2 : ℚ) :
    ((m.stop_monitoring t1).stop_monitoring t2).collision_events
        = (m.stop_monitoring t1).collision_events
    ∧ ((m.stop_monitoring t1).stop_monitoring t2).session_data.collision_events
        = (m.stop_monitoring t1).session_data.collision_events
    ∧ ((m.stop_monitoring t1).stop_monitoring t2).session_data.collision_count
        = (m.stop_monitoring t1).session_data.collision_count
    ∧ ((m.stop_monitoring t1).stop_monitoring t2).is_monitoring = false
    ∧ (m.stop_monitoring t1).is_monitoring = false
    ∧ ((m.stop_monitoring t1).stop_monitoring t2).start_time
        = (m.stop_monitoring t1).start_time := by
  cases h : m.start_time <;>
    simp [PressureMonitor.stop_monitoring, LebaiPressureDetector.stop_monitoring, h]

/-- C8 (code bug): once a session has a start time, recording a detection
event always fails: `_record_collision_event` reads `event.tcp_position`
and `event.tcp_velocity`, fields the `PressureEvent` namedtuple does not
have, so the record raises `AttributeError` and nothing reaches the
session record (whose entry schema moreover carries no affected joints
and no raw voltage/current snapshots). -/
theorem c8_record_event_always_raises (m : PressureMonitor) (st : ℚ)
    (ev : PressureEvent) (now : ℚ) (h : m.start_time = some st) :
    m.record_collision_event (some ev) now = .error () := by
  simp [PressureMonitor.record_collision_event, h, PressureEvent.tcp_position_attr]

/-- C8 witness: recording the C1 event on a started session raises. -/
theorem c8_record_event_always_raises_witness :
    c6Monitor.start_time = some 0
    ∧ c6Monitor.record_collision_event (some (c1Event 1)) 1 = .error () :=
  ⟨rfl, c8_record_event_always_raises c6Monitor 0 (c1Event 1) 1 rfl⟩

/-- Evaluation of `is_pressure_detected` on the C1 snapshot from any
detector that is monitoring with the C1 baseline and normal thresholds. -/
lemma is_detected_c1_eval (d : LebaiPressureDetector)
    (hm : d.is_monitoring = true)
    (hv : d.baseline_voltages = some c1Baseline_v)
    (hc : d.baseline_currents = some c1Baseline_c)
    (ht : d.thresholds = normalThresholds) (now : ℚ) :
    d.is_pressure_detected (some c1Phy) now
      = (true, { d with
          pressure_detected := true
          last_pressure_event := some (c1Event now)
          detection_stats := { d.detection_stats with
            total_detections := d.detection_stats.total_detections + 1
            voltage_detections := d.detection_stats.voltage_detections + 1 } }) := by
  simp [LebaiPressureDetector.is_pressure_detected, hm, hv, hc, ht, analyze_c1_eval]

/-- C6 (code bug): feeding the sampling loop the same event-triggering
snapshot on two consecutive ticks appends zero events to the record, not
one: on each tick `_record_collision_event` raises `AttributeError`
(caught by the loop's handler), so nothing is recorded and `last_event`
is never even updated. -/
theorem c6_two_triggering_ticks_record_nothing :
    (c6Monitor.monitoring_loop_run [(some c1Phy, 1), (some c1Phy, 2)]).collision_events
        = []
    ∧ (c6Monitor.monitoring_loop_run
        [(some c1Phy, 1), (some c1Phy, 2)]).session_data.collision_count = 0
    ∧ (c6Monitor.monitoring_loop_run
            [(some c1Phy, 1), (some c1Phy, 2)]).pressure_detector.detection_stats.total_detections
        = 2
    ∧ (c6Monitor.monitoring_loop_run [(some c1Phy, 1), (some c1Phy, 2)]).last_event
        = none := by
  refine ⟨?_, ?_, ?_, ?_⟩ <;>
    simp [PressureMonitor.monitoring_loop_run, PressureMonitor.monitoring_loop_step,
      PressureMonitor.record_collision_event, PressureEvent.tcp_position_attr,
      LebaiPressureDetector.reset_pressure_state, c6Monitor, c1Detector,
      is_detected_c1_eval]

end RobotArmCtl
